import Mathlib

/-!
Verification development for the ToFiSca frame-registration subsystem
(`src/tofisca/models.py`, `src/tofisca/scanarea_manager.py`, `src/tofisca/film_specs.py`).

Modelling conventions:

* Python floats are modelled as rationals (`ℚ`); the arithmetic of the claims is
  exact, no rounding of binary floats is relevant to them.
* Pydantic field validation (`Field(ge=0.0, le=1.0)` etc.) happens when a model is
  constructed; attribute assignment is not validated (`validate_assignment` is off).
  We therefore model each pydantic model as a plain structure with unconstrained
  fields plus a checked smart constructor `mk?` that returns `none` exactly when the
  Python constructor would raise `ValidationError`.
* Images: the source receives 3-channel BGR buffers and converts them with
  `cv.cvtColor(..., COLOR_BGR2GRAY)` before any arithmetic. We model the grayscale
  plane directly (`Image.pix row col` is the gray value). For a channel-uniform
  image the conversion is the identity and `cv.meanStdDev` yields the same value
  for every channel, so the model is exact on such images.
* `np.argmax` on a boolean array returns the first index whose entry is true and
  `0` when no entry is true; this quirk is modelled by `np_argmax_bool`.
* Python `round` is round-half-to-even (`pyRound`), `int()` truncates toward zero
  (`pyTrunc`), and slice indices clamp (negative values count from the end), see
  `pySlice`.
-/

/-- Python round: round half to even, as used by `round(x)` on floats. -/
def pyRound (q : ℚ) : ℤ :=
  let f : ℤ := ⌊q⌋
  let frac : ℚ := q - f
  if frac < 1/2 then f
  else if 1/2 < frac then f + 1
  else if f % 2 = 0 then f else f + 1

/-- Python int(): truncation toward zero. -/
def pyTrunc (q : ℚ) : ℤ :=
  if 0 ≤ q then ⌊q⌋ else -⌊-q⌋

/-- Python slice index resolution for one axis of length `n`: a negative index
counts from the end; the result is clamped into `[0, n]`. Returns the half-open
range `[start, stop)` of the slice `a:b`. -/
def pySlice (a b : ℤ) (n : ℕ) : ℕ × ℕ :=
  let norm : ℤ → ℕ := fun i => if i < 0 then (n + i).toNat else min i.toNat n
  (norm a, norm b)

/-- Test for membership in the closed unit interval, the pydantic
`ge=0.0, le=1.0` field constraint. -/
def unitClosed (q : ℚ) : Bool := decide (0 ≤ q) && decide (q ≤ 1)

/-! ## Geometry primitives (`models.py`) -/

/-- Pydantic model `Point` with `x, y ∈ [0,1]`. -/
structure Point where
  x : ℚ
  y : ℚ
deriving DecidableEq, Repr

/-- Validated constructor of `Point`; `none` models a pydantic `ValidationError`. -/
def Point.mk? (x y : ℚ) : Option Point :=
  if unitClosed x && unitClosed y then some ⟨x, y⟩ else none

/-- Pydantic model `OffsetPoint` with `dx, dy ∈ [-1,1]`. -/
structure OffsetPoint where
  dx : ℚ
  dy : ℚ
deriving DecidableEq, Repr

/-- Validated constructor of `OffsetPoint`. -/
def OffsetPoint.mk? (dx dy : ℚ) : Option OffsetPoint :=
  if decide (-1 ≤ dx) && decide (dx ≤ 1) && decide (-1 ≤ dy) && decide (dy ≤ 1) then
    some ⟨dx, dy⟩
  else none

/-- Pydantic model `Size` with `width, height ∈ [0,1]`. -/
structure Size where
  width : ℚ
  height : ℚ
deriving DecidableEq, Repr

/-- Validated constructor of `Size`. -/
def Size.mk? (width height : ℚ) : Option Size :=
  if unitClosed width && unitClosed height then some ⟨width, height⟩ else none

/-- Pydantic model `Rect`: top-left corner plus size, all fields in `[0,1]`. -/
structure Rect where
  x : ℚ
  y : ℚ
  width : ℚ
  height : ℚ
deriving DecidableEq, Repr

/-- Validated constructor of `Rect` (each of the four fields is checked
against `[0,1]`; the constructor does not check `x + width ≤ 1`). -/
def Rect.mk? (x y width height : ℚ) : Option Rect :=
  if unitClosed x && unitClosed y && unitClosed width && unitClosed height then
    some ⟨x, y, width, height⟩
  else none

/-- Derived `Rect.center` (the `Point` validation always succeeds for a
constructor-valid `Rect`, so the raw value is the faithful model of the
property on such rects; validated access is `Rect.center?`). -/
def Rect.center (r : Rect) : Point :=
  ⟨r.x + r.width / 2, r.y + r.height / 2⟩

/-- Derived `Rect.center` with the `Point` construction validated. -/
def Rect.center? (r : Rect) : Option Point :=
  Point.mk? (r.x + r.width / 2) (r.y + r.height / 2)

/-- Pydantic model `RectEdges`, all fields in `[0,1]`. -/
structure RectEdges where
  top : ℚ
  bottom : ℚ
  left : ℚ
  right : ℚ
deriving DecidableEq, Repr

/-- Validated constructor of `RectEdges`. -/
def RectEdges.mk? (top bottom left right : ℚ) : Option RectEdges :=
  if unitClosed top && unitClosed bottom && unitClosed left && unitClosed right then
    some ⟨top, bottom, left, right⟩
  else none

/-! ## PerforationLocation and ScanArea (`models.py`) -/

/-- Pydantic model `PerforationLocation`: the four edges of one sprocket hole,
each field validated into `[0,1]` at construction. -/
structure PerforationLocation where
  top_edge : ℚ
  bottom_edge : ℚ
  inner_edge : ℚ
  outer_edge : ℚ
deriving DecidableEq, Repr

/-- Validated constructor of `PerforationLocation`. -/
def PerforationLocation.mk? (top_edge bottom_edge inner_edge outer_edge : ℚ) :
    Option PerforationLocation :=
  if unitClosed top_edge && unitClosed bottom_edge && unitClosed inner_edge &&
      unitClosed outer_edge then
    some ⟨top_edge, bottom_edge, inner_edge, outer_edge⟩
  else none

namespace PerforationLocation

/-- Property `width = inner_edge - outer_edge`. -/
def width (p : PerforationLocation) : ℚ := p.inner_edge - p.outer_edge

/-- Property `height = bottom_edge - top_edge`. -/
def height (p : PerforationLocation) : ℚ := p.bottom_edge - p.top_edge

/-- Property `reference`: point on the inner edge, vertically centered
(raw values of the `Point` the source constructs). -/
def reference (p : PerforationLocation) : Point :=
  ⟨p.inner_edge, (p.top_edge + p.bottom_edge) / 2⟩

/-- Property `reference` with the `Point` construction validated. -/
def reference? (p : PerforationLocation) : Option Point :=
  Point.mk? p.inner_edge ((p.top_edge + p.bottom_edge) / 2)

/-- Property `center` (raw values). -/
def center (p : PerforationLocation) : Point :=
  ⟨(p.inner_edge + p.outer_edge) / 2, (p.top_edge + p.bottom_edge) / 2⟩

/-- Property `center` with the `Point` construction validated. -/
def center? (p : PerforationLocation) : Option Point :=
  Point.mk? ((p.inner_edge + p.outer_edge) / 2) ((p.top_edge + p.bottom_edge) / 2)

/-- Property `rect`: the source builds `Rect(x=top_edge, y=outer_edge,
width=self.width, height=self.height)` (raw values). -/
def rect (p : PerforationLocation) : Rect :=
  ⟨p.top_edge, p.outer_edge, p.width, p.height⟩

/-- Property `rect` with the `Rect` construction validated. -/
def rect? (p : PerforationLocation) : Option Rect :=
  Rect.mk? p.top_edge p.outer_edge p.width p.height

end PerforationLocation

/-- Pydantic model `ScanArea`: a reference perforation, an offset and a size. -/
structure ScanArea where
  perf_ref : PerforationLocation
  ref_delta : OffsetPoint
  size : Size
deriving DecidableEq, Repr

namespace ScanArea

/-- Raw values of the `rect` property:
top-left is `perf_ref.reference + ref_delta`, size is `size`. -/
def rectRaw (sa : ScanArea) : Rect :=
  ⟨sa.perf_ref.reference.x + sa.ref_delta.dx,
   sa.perf_ref.reference.y + sa.ref_delta.dy,
   sa.size.width, sa.size.height⟩

/-- Property `rect` as the source computes it: first the validated
`perf_ref.reference` point, then a validated `Rect`. -/
def rect? (sa : ScanArea) : Option Rect := do
  let r ← sa.perf_ref.reference?
  Rect.mk? (r.x + sa.ref_delta.dx) (r.y + sa.ref_delta.dy) sa.size.width sa.size.height

/-- Raw values of the `edges` property. -/
def edgesRaw (sa : ScanArea) : RectEdges :=
  let top := sa.perf_ref.reference.y + sa.ref_delta.dy
  let left := sa.perf_ref.reference.x + sa.ref_delta.dx
  ⟨top, top + sa.size.height, left, left + sa.size.width⟩

/-- Property `edges` as the source computes it: the validated
`perf_ref.reference` point, then a validated `RectEdges`. -/
def edges? (sa : ScanArea) : Option RectEdges := do
  let r ← sa.perf_ref.reference?
  let top := r.y + sa.ref_delta.dy
  let left := r.x + sa.ref_delta.dx
  RectEdges.mk? top (top + sa.size.height) left (left + sa.size.width)

/-- Property `is_valid`: the source computes `self.edges` and reports whether a
`ValidationError` was raised. -/
def is_valid (sa : ScanArea) : Bool := sa.edges?.isSome

end ScanArea

/-! ## Image model and numpy/OpenCV primitives -/

/-- A grayscale image: height, width and the gray value of each pixel,
indexed as `pix row col` (row-major, like the numpy arrays of the source). -/
structure Image where
  h : ℕ
  w : ℕ
  pix : ℕ → ℕ → ℚ

/-- Sum of `f i` for `i ∈ [a, b)`. -/
def sumIdx (f : ℕ → ℚ) (a b : ℕ) : ℚ :=
  ((List.range (b - a)).map (fun i => f (a + i))).sum

/-- Sum of the pixels of the block with rows `[r0, r1)` and columns `[c0, c1)`. -/
def Image.blockSum (img : Image) (r0 r1 c0 c1 : ℕ) : ℚ :=
  sumIdx (fun r => sumIdx (fun c => img.pix r c) c0 c1) r0 r1

/-- Mean gray value of a block, `np.average` of a 2-D slice.
An empty block divides by zero and yields `0` in `ℚ` (numpy would produce nan;
no claim evaluates an empty block). -/
def Image.blockAvg (img : Image) (r0 r1 c0 c1 : ℕ) : ℚ :=
  img.blockSum r0 r1 c0 c1 / ((r1 - r0) * (c1 - c0) : ℕ)

/-- The 1-D profile `np.average(slice, axis=1)` of the column window `[c0, c1)`:
entry `r` is the mean over that window of row `r`. -/
def Image.lineV (img : Image) (c0 c1 : ℕ) (r : ℕ) : ℚ :=
  img.blockAvg r (r + 1) c0 c1

/-- The 1-D profile `np.mean(slice, axis=0)` of the row window `[r0, r1)`:
entry `c` is the mean over that window of column `c`. -/
def Image.lineH (img : Image) (r0 r1 : ℕ) (c : ℕ) : ℚ :=
  img.blockAvg r0 r1 c (c + 1)

/-- Semantics of `int(np.argmax(boolean_array))` for an array of length `n`
whose entry `i` is `p i`: the first true index, or `0` if every entry is false. -/
def np_argmax_bool (p : ℕ → Bool) (n : ℕ) : ℕ :=
  ((List.range n).findIdx? p).getD 0

/-- Mean gray value of the whole image. -/
def Image.mean (img : Image) : ℚ := img.blockAvg 0 img.h 0 img.w

/-- Population variance of the gray values, the square of the stddev reported by
`cv.meanStdDev` (per channel; equal to this value on channel-uniform images). -/
def Image.variance (img : Image) : ℚ :=
  sumIdx (fun r => sumIdx (fun c => (img.pix r c - img.mean) ^ 2) 0 img.w) 0 img.h
    / (img.h * img.w : ℕ)

/-- Blank test of `ScanAreaManager._is_blank`: the source checks
`np.amax(stddev) < threshold`; for the grayscale plane this is equivalent to
`variance < threshold ^ 2` (both sides nonnegative), which stays rational. -/
def Image.is_blank (img : Image) (threshold : ℚ) : Bool :=
  decide (img.variance < threshold ^ 2)

/-- Aspect of `ScanAreaManager._image_aspect_ration`: width / height. -/
def Image.aspect (img : Image) : ℚ := (img.w : ℚ) / (img.h : ℚ)

/-! ## Film specification (`film_specs.py`) -/

/-- The entries of the injected film specification the frame-registration
subsystem reads (`FSKeys` used by `scanarea_manager.py`); each pair is
`(width, height)` in millimeters. -/
structure FilmSpec where
  film_frame_size : ℚ × ℚ
  perforation_size : ℚ × ℚ
  camera_frame_size : ℚ × ℚ
  camera_frame_pos : ℚ × ℚ
deriving DecidableEq, Repr

/-- The Super8 entry of `film_specs`. -/
def super8 : FilmSpec where
  film_frame_size := (7976/1000, 4234/1000)
  perforation_size := (914/1000, 1143/1000)
  camera_frame_size := (569/100, 422/100)
  camera_frame_pos := (1470/1000 - (510/1000 + 914/1000), -(422/100) / 2)

/-! ## Threshold levels and error taxonomy (`scanarea_manager.py`) -/

/-- Pydantic model `ImageThresholdLevels`, both fields validated into `[0,255]`. -/
structure ImageThresholdLevels where
  perforation_level : ℚ
  filmstock_level : ℚ
deriving DecidableEq, Repr

/-- Validated constructor of `ImageThresholdLevels`. -/
def ImageThresholdLevels.mk? (perforation_level filmstock_level : ℚ) :
    Option ImageThresholdLevels :=
  if decide (0 ≤ perforation_level) && decide (perforation_level ≤ 255) &&
      decide (0 ≤ filmstock_level) && decide (filmstock_level ≤ 255) then
    some ⟨perforation_level, filmstock_level⟩
  else none

/-- Property `average`: the middle between the perforation level and the
filmstock level. -/
def ImageThresholdLevels.average (t : ImageThresholdLevels) : ℚ :=
  (t.perforation_level + t.filmstock_level) / 2

/-- Classification derived in `MalformedPerforationException.__init__` from the
expected and actual sizes. -/
inductive SizeClassification
  | oversized
  | undersized
  | offset
deriving DecidableEq, Repr

/-- The derivation of the classification string of
`MalformedPerforationException`. -/
def classifySize (expected_size actual_size : ℚ) : SizeClassification :=
  if actual_size > expected_size then .oversized
  else if actual_size < expected_size then .undersized
  else .offset

/-- Payload of `MalformedPerforationException`: the perforation, the expected
and the actual size, and the classification derived from them. -/
structure MalformedPerforation where
  perfloc : PerforationLocation
  expected_size : ℚ
  actual_size : ℚ
  classification : SizeClassification
deriving DecidableEq, Repr

/-- Exceptions that can escape the manager methods. -/
inductive SAMError
  /-- `ScanAreaManagerNotSetUpError`. -/
  | notSetUp
  /-- `NoImageSetError`. -/
  | noImage
  /-- `PerforationNotFoundException` with its diagnostic payload
  (`perf_edges`, `starting_point`, `perf_line`). -/
  | perforationNotFound (edges : Option PerforationLocation)
      (starting_point : Option Point) (perf_line : Option ℤ)
  /-- `BlankFrameException`. -/
  | blankFrame
  /-- `ScanAreaOutOfImageException` with its payload. -/
  | scanAreaOutOfImage (starting_point : Option Point) (scanarea : ScanArea)
  /-- `MalformedPerforationException`. -/
  | malformedPerforation (m : MalformedPerforation)
  /-- Pydantic `ValidationError` escaping from a model constructor. -/
  | validationError
  /-- A plain Python runtime error (the bare `raise` in `update`, or an
  `AttributeError` from dereferencing a `None` field). -/
  | pyError
deriving DecidableEq, Repr

/-- Lifts a validated constructor result, turning a pydantic
`ValidationError` into `SAMError.validationError`. -/
def validated {α : Type} : Option α → Except SAMError α
  | some a => .ok a
  | none => .error .validationError

/-! ## `ScanAreaManager._fix_perforation`

The source mutates `perfloc` in place and returns nothing; the model returns
the resulting perforation location, or the raised
`MalformedPerforationException`. Its inputs are the fields the method reads:
`self._reference_perfloc` (`refPerf`; `None` means nothing to fix) and
`self._scanarea.perf_ref` (`prev`, the perforation of the previous frame). -/

def fix_perforation (refPerf : Option PerforationLocation) (prev : PerforationLocation)
    (perfloc : PerforationLocation) : Except MalformedPerforation PerforationLocation :=
  match refPerf with
  | none => .ok perfloc
  | some ref_loc =>
    let ref_height := ref_loc.height
    let ref_width := ref_loc.width
    let last_inner := prev.inner_edge
    let height := perfloc.bottom_edge - perfloc.top_edge
    let epsilon := ref_height * (2/100)
    let vertical : Except MalformedPerforation PerforationLocation :=
      if |height - ref_height| > epsilon then
        let top_offset := perfloc.top_edge - prev.top_edge
        let bot_offset := perfloc.bottom_edge - prev.bottom_edge
        if |top_offset| < epsilon then
          .ok { perfloc with bottom_edge := perfloc.top_edge + ref_height }
        else if |bot_offset| < epsilon then
          .ok { perfloc with top_edge := perfloc.bottom_edge - ref_height }
        else
          .error ⟨perfloc, ref_height, perfloc.height,
                  classifySize ref_height perfloc.height⟩
      else .ok perfloc
    match vertical with
    | .error e => .error e
    | .ok p =>
      let delta_inner := p.inner_edge - last_inner
      if |delta_inner| > 5/100 then
        .ok { p with inner_edge := last_inner,
                     outer_edge := max 0 (last_inner - ref_width) }
      else .ok p

/-! ## `ScanAreaManager._find_perforation_from_point`

Inputs are the image, the fields the method reads
(`self._threshold_levels`, and for the final `_fix_perforation` call
`self._reference_perfloc` and `self._scanarea.perf_ref`), and the starting
point. `Except` carries a raised exception; `.ok none` is the returned `None`
("not found"). The starting point comes from a validated `Point`, so
`start_point.x`, `start_point.y` lie in `[0,1]` at every call site and the
pixel coordinates are the nonnegative `round` values. -/

/-- The scan phase of `_find_perforation_from_point`, up to building the
(validated) `PerforationLocation` and before `_fix_perforation`. -/
def find_perforation_from_point_raw (img : Image)
    (threshold_levels : Option ImageThresholdLevels) (start_point : Point) :
    Except SAMError (Option PerforationLocation) := do
  let img_h := img.h
  let img_w := img.w
  let p_x : ℕ := (pyRound (start_point.x * img_w)).toNat
  let p_y : ℕ := (pyRound (start_point.y * img_h)).toNat
  let delta : ℕ := 10
  let y_start := p_y - delta  -- max(p_y - delta, 0) via truncated ℕ subtraction
  let y_end := min (p_y + delta) img_h
  let x_start := p_x - delta
  let x_end := min (p_x + delta) img_w
  let avg := img.blockAvg y_start y_end x_start x_end
  let threshold? : Option ℚ :=
    match threshold_levels with
    | some levels => if avg < levels.average then none else some levels.average
    | none => some (avg - 20)
  match threshold? with
  | none => return none
  | some threshold =>
    -- vertical profile over the column band around the starting point
    let line := img.lineV (p_x - delta) (min (p_x + delta) img_w)
    -- top edge: first value below threshold going up from the starting point
    let idxTop := np_argmax_bool (fun i => decide (line (p_y - 1 - i) < threshold)) p_y
    if 0 < idxTop ∧ idxTop < img_h then do
      let top_edge := p_y - idxTop
      -- bottom edge: first value below threshold going down
      let idxBot := np_argmax_bool (fun i => decide (line (p_y + i) < threshold)) (img_h - p_y)
      if 0 < idxBot ∧ idxBot < img_h then do
        let bot_edge := p_y + idxBot
        -- horizontal profile over the uncropped row band `p_y ± delta`
        let rows := pySlice (p_y - (delta : ℤ)) (p_y + (delta : ℤ)) img_h
        let lineH := img.lineH rows.1 rows.2
        -- inner edge going right; `0 <= idx` is always true, so an all-bright
        -- row yields `inner_edge = p_x` instead of the documented `None`
        let idxInner := np_argmax_bool (fun i => decide (lineH (p_x + i) < threshold)) (img_w - p_x)
        if 0 ≤ idxInner ∧ idxInner < img_w then do
          let inner_edge := p_x + idxInner
          -- outer edge going left; may not be found
          let m := max p_x 1
          let idxOuter := np_argmax_bool (fun i => decide (lineH (m - 1 - i) < threshold)) m
          let outer_edge := if 0 ≤ idxOuter ∧ idxOuter < img_w then p_x - idxOuter else 0
          let perfloc ← validated (PerforationLocation.mk? (top_edge / img_h)
            (bot_edge / img_h) (inner_edge / img_w) (outer_edge / img_w))
          return some perfloc
        else return none
      else return none
    else return none

/-- Full `_find_perforation_from_point`: the scan phase followed by
`_fix_perforation` on a found location. -/
def find_perforation_from_point (img : Image)
    (threshold_levels : Option ImageThresholdLevels)
    (refPerf : Option PerforationLocation) (prev : PerforationLocation)
    (start_point : Point) : Except SAMError (Option PerforationLocation) := do
  match ← find_perforation_from_point_raw img threshold_levels start_point with
  | none => return none
  | some perfloc =>
    match fix_perforation refPerf prev perfloc with
    | .error m => .error (.malformedPerforation m)
    | .ok fixed => return some fixed

/-! ## `clamp` and `ScanAreaManager._max_perf_edges` -/

/-- Module-level helper `clamp(n, min_value, max_value)`. -/
def clamp (n min_value max_value : ℚ) : ℚ := max min_value (min n max_value)

/-- Static method `_max_perf_edges`: band of perforation positions keeping the
derived scanarea inside the image. The source constructs a validated
`RectEdges`, whose validation always succeeds on these clamped values. -/
def max_perf_edges (scanarea : ScanArea) : RectEdges :=
  let perf_height := scanarea.perf_ref.bottom_edge - scanarea.perf_ref.top_edge
  let upmost_ref_point_y := -scanarea.ref_delta.dy
  let top := clamp (upmost_ref_point_y - perf_height / 2) 0 1
  let downmost_ref_point_y := 1 - scanarea.size.height - scanarea.ref_delta.dy
  let bottom := clamp (downmost_ref_point_y + perf_height / 2) 0 1
  let left : ℚ := 0
  let right := clamp (1 - scanarea.size.width - scanarea.ref_delta.dx) 0 1
  ⟨top, bottom, left, right⟩

/-! ## `ScanAreaManager._find_perforation_from_line` -/

/-- Line search along the vertical at `line_pos`. Inputs are the fields the
method reads: `self._threshold_levels` (dereferenced immediately, `None` is an
`AttributeError`), `self._reference_perfloc` (for the reference width and the
final `_fix_perforation`) and `self._scanarea` (for `_max_perf_edges` and the
previous perforation). The `while` loop of the source either raises inside, or
breaks at the end of, its first iteration, so it is a single conditional pass
with `start = 0`. -/
def find_perforation_from_line (img : Image)
    (threshold_levels : Option ImageThresholdLevels)
    (refPerf : Option PerforationLocation) (scanarea : ScanArea) (line_pos : ℚ) :
    Except SAMError PerforationLocation := do
  match threshold_levels with
  | none => .error .pyError
  | some levels =>
    let threshold := levels.average
    let img_h := img.h
    let img_w := img.w
    let delta : ℤ := pyRound ((img_w : ℚ) * (1/100) + 1)
    let perf_line : ℤ := pyRound (line_pos * img_w)
    let cols := pySlice (perf_line - delta) (perf_line + delta) img_w
    let line := img.lineV cols.1 cols.2
    let edges := max_perf_edges scanarea
    let min_top := edges.top * img_h
    let max_bottom := edges.bottom * img_h
    let max_inner := edges.right * img_w
    if (0 : ℚ) < max_bottom then
      let first_dark := np_argmax_bool (fun i => decide (line i < threshold)) img_h
      let top := np_argmax_bool (fun i => decide (threshold < line (first_dark + i)))
        (img_h - first_dark)
      let bot := np_argmax_bool (fun i => decide (line (first_dark + top + i) < threshold))
        (img_h - first_dark - top)
      if top = 0 ∨ bot = 0 then
        .error (.perforationNotFound none none none)
      else
        let top_edge := first_dark + top
        let bottom_edge := first_dark + top + bot
        let mid : ℤ := pyRound (((top_edge : ℚ) + bottom_edge) / 2)
        let rows := pySlice (mid - delta) (mid + delta) img_h
        let innerLine := img.lineH rows.1 rows.2
        let cols2 := pySlice perf_line img_w img_w
        let idx := np_argmax_bool (fun i => decide (innerLine (cols2.1 + i) < threshold))
          (cols2.2 - cols2.1)
        let inner_edge : ℤ := if idx = 0 then img_w else perf_line + idx
        match refPerf with
        | none => .error .pyError
        | some ref =>
          let reference_width := ref.width * img_w
          let outer_edge : ℚ := inner_edge - reference_width
          if (top_edge : ℚ) < min_top ∨ (bottom_edge : ℚ) > max_bottom ∨
              (inner_edge : ℚ) > max_inner then
            .error (.perforationNotFound none none (some perf_line))
          else do
            let perfloc ← validated (PerforationLocation.mk? (top_edge / img_h)
              (bottom_edge / img_h) (inner_edge / img_w) (outer_edge / img_w))
            match fix_perforation refPerf scanarea.perf_ref perfloc with
            | .error m => .error (.malformedPerforation m)
            | .ok fixed => return fixed
    else
      .error (.perforationNotFound none none (some perf_line))

/-! ## `ScanAreaManager._get_scanarea_from_perforation` and
`_get_intensities_from_perforation` -/

/-- Derives the `ScanArea` for a perforation from the film specification.
Constructing `OffsetPoint` and `Size` is validated and can raise. -/
def get_scanarea_from_perforation (image : Option Image) (specs : FilmSpec)
    (perfloc : PerforationLocation) : Except SAMError ScanArea := do
  let top_edge := perfloc.top_edge
  let bot_edge := perfloc.bottom_edge
  let perf_h_mm := specs.perforation_size.2
  let scale_v := (bot_edge - top_edge) / perf_h_mm
  let scale_h :=
    match image with
    | some img => scale_v / img.aspect
    | none => scale_v
  let delta_ref ← validated (OffsetPoint.mk? (specs.camera_frame_pos.1 * scale_h)
    (specs.camera_frame_pos.2 * scale_v))
  let size ← validated (Size.mk? (specs.camera_frame_size.1 * scale_h)
    (specs.camera_frame_size.2 * scale_v))
  return { perf_ref := perfloc, ref_delta := delta_ref, size := size }

/-- Samples the perforation (bright) and filmstock (dark) gray levels around
the given perforation rect. Returns the `ImageThresholdLevels` the method
stores into the manager (the `self._image is None` guard of the source cannot
fire at the embedded call sites, which all set the image first). -/
def get_intensities_from_perforation (img : Image) (perf_rect : Rect) :
    Except SAMError ImageThresholdLevels := do
  let px := perf_rect.x * img.w
  let py := perf_rect.y * img.h
  let pw := perf_rect.width * img.w
  let ph := perf_rect.height * img.h
  let center_x : ℤ := pyTrunc (px + pw / 2)
  let center_y : ℤ := pyTrunc (py + ph / 2)
  let outside_x : ℤ := center_x
  let outside_y : ℤ := pyTrunc ((center_y : ℚ) + ph + ph / 10)
  let rows1 := pySlice (center_y - 10) (center_y + 10) img.h
  let cols1 := pySlice (center_x - 10) (center_x + 10) img.w
  let perforation_level := img.blockAvg rows1.1 rows1.2 cols1.1 cols1.2
  let rows2 := pySlice (outside_y - 10) (outside_y + 10) img.h
  let cols2 := pySlice (outside_x - 10) (outside_x + 10) img.w
  let filmstock_level := img.blockAvg rows2.1 rows2.2 cols2.1 cols2.2
  validated (ImageThresholdLevels.mk? perforation_level filmstock_level)

/-! ## Manager state and the public operations -/

/-- The mutable fields of a `ScanAreaManager` instance that the detection
methods touch (`_image`, `_reference_perfloc`, `_scanarea`,
`_threshold_levels`, `_blank_image_threshold`, `_specs`). -/
structure SAMState where
  image : Option Image
  reference_perfloc : Option PerforationLocation
  scanarea : Option ScanArea
  threshold_levels : Option ImageThresholdLevels
  blank_image_threshold : ℚ
  specs : Option FilmSpec

/-- Placeholder passed for the previous-frame perforation at call sites where
`self._reference_perfloc` is `None`, so `_fix_perforation` returns without
reading it. -/
def noPrev : PerforationLocation := ⟨0, 0, 0, 0⟩

/-- Property `recommended_shift` (read-only, no state is written). -/
def recommended_shift (st : SAMState) : Except SAMError ℚ := do
  match st.scanarea with
  | none => .error .notSetUp
  | some sa =>
    match st.specs with
    | none => .error .pyError  -- subscripting the unset specs dict
    | some specs =>
      let frame_to_perf := specs.film_frame_size.2 / specs.perforation_size.2
      match st.reference_perfloc with
      | none => .error .pyError  -- AttributeError: None.height
      | some refp =>
        let frame_height := refp.height * frame_to_perf
        let c ← validated sa.perf_ref.center?
        let centerline := c.y
        let delta_centerline := centerline - 1/2
        let offset := delta_centerline / frame_height
        return offset

/-- Method `manualdetect(image, start_point)`. Returns the manager state after
the call together with the raised exception, if any. -/
def manualdetect (st : SAMState) (image : Image) (start_point : Point) :
    SAMState × Except SAMError Unit :=
  -- store the image and mark the current areas as invalid
  let st1 : SAMState :=
    { st with image := some image, reference_perfloc := none, scanarea := none }
  match find_perforation_from_point image st1.threshold_levels none noPrev start_point with
  | .error e => (st1, .error e)
  | .ok none => (st1, .error (.perforationNotFound none (some start_point) none))
  | .ok (some perf_loc) =>
    match perf_loc.rect? with
    | none => (st1, .error .validationError)
    | some prect =>
      match get_intensities_from_perforation image prect with
      | .error e => (st1, .error e)
      | .ok levels =>
        let st2 := { st1 with threshold_levels := some levels }
        -- `self._scanarea` was just cleared, so the else branch of the source
        -- (reuse the existing scanarea) is dead; it is kept for fidelity
        match st2.scanarea with
        | some scanarea =>
          let sa2 := { scanarea with perf_ref := perf_loc }
          ({ st2 with reference_perfloc := some perf_loc, scanarea := some sa2 }, .ok ())
        | none =>
          match st2.specs with
          | none => (st2, .error .pyError)
          | some specs =>
            match get_scanarea_from_perforation (some image) specs perf_loc with
            | .error e => (st2, .error e)
            | .ok scanarea =>
              if scanarea.is_valid then
                ({ st2 with reference_perfloc := some perf_loc,
                            scanarea := some scanarea }, .ok ())
              else
                (st2, .error (.scanAreaOutOfImage (some start_point) scanarea))

/-! ## `ScanAreaManager.autodetect`

The whole-image contour pass `_find_perforations` is OpenCV work
(`cv.medianBlur`, `cv.threshold`, `cv.findContours`): its output, the list of
normalized perforation-candidate rects in contour order, is taken as the
`candidates` argument here; everything after that point is embedded from the
source. -/

/-- The per-candidate loop of `autodetect`: calibrate intensities from the
candidate, refine it with the point search, fall back to the contour rect,
derive a `ScanArea` and keep it when valid. Returns the state (the committed
threshold levels survive a later exception) plus the collected valid frames
and the last starting point and scanarea for the error payload. -/
def autodetect_loop (image : Image) (specs : FilmSpec) :
    List Rect → SAMState → List ScanArea → Option Point → Option ScanArea →
    SAMState × Except SAMError (List ScanArea × Option Point × Option ScanArea)
  | [], st, frames, sp, sa => (st, .ok (frames, sp, sa))
  | perf_rect :: rest, st, frames, _, _ =>
    match perf_rect.center? with
    | none => (st, .error .validationError)
    | some start_point =>
      match get_intensities_from_perforation image perf_rect with
      | .error e => (st, .error e)
      | .ok levels =>
        let st := { st with threshold_levels := some levels }
        match find_perforation_from_point image st.threshold_levels none noPrev
            start_point with
        | .error e => (st, .error e)
        | .ok res =>
          let perf_loc? : Except SAMError PerforationLocation :=
            match res with
            | some p => .ok p
            | none =>
              -- no valid edges found: go with the detected contour
              validated (PerforationLocation.mk? perf_rect.y
                (perf_rect.y + perf_rect.height) (perf_rect.x + perf_rect.width) 0)
          match perf_loc? with
          | .error e => (st, .error e)
          | .ok perf_loc =>
            match get_scanarea_from_perforation (some image) specs perf_loc with
            | .error e => (st, .error e)
            | .ok scanarea =>
              let frames := if scanarea.is_valid then frames ++ [scanarea] else frames
              autodetect_loop image specs rest st frames (some start_point) (some scanarea)

/-- The final selection of `autodetect` over the collected valid frames
(`result = frame_list.pop(0)` plus the `len(frame_list) > 1` loop). Every
member of the frame list satisfies `is_valid`, so the validated `rect` and
`edges` property accesses of the source succeed with the raw values. -/
def selectScanArea (first : ScanArea) (rest : List ScanArea) : ScanArea :=
  let result_delta := |1/2 - first.rectRaw.center.y|
  if rest.length > 1 then
    (rest.foldl (fun acc scanarea =>
      let center := scanarea.edgesRaw.top + scanarea.size.height / 2
      let delta := |1/2 - center|
      if delta < acc.2 then (scanarea, delta) else acc) (first, result_delta)).1
  else first

/-- Method `autodetect(image)` with the contour candidates supplied. -/
def autodetect (st : SAMState) (image : Image) (candidates : List Rect) :
    SAMState × Except SAMError Unit :=
  -- store the image and mark the current areas as invalid
  let st1 : SAMState :=
    { st with image := some image, reference_perfloc := none, scanarea := none }
  match st1.specs with
  | none => (st1, .error .pyError)  -- `_find_perforations` subscripts the specs
  | some specs =>
    if candidates.isEmpty then
      (st1, .error (.perforationNotFound none none none))
    else
      match autodetect_loop image specs candidates st1 [] none none with
      | (st2, .error e) => (st2, .error e)
      | (st2, .ok (frames, sp, sa)) =>
        match frames with
        | [] =>
          match sa with
          | some scanarea => (st2, .error (.scanAreaOutOfImage sp scanarea))
          | none => (st2, .error .pyError)  -- unreachable: candidates was nonempty
        | first :: rest =>
          let result := selectScanArea first rest
          ({ st2 with reference_perfloc := some result.perf_ref,
                      scanarea := some result }, .ok ())

/-! ## `ScanAreaManager.update` -/

/-- Method `update(image)`: point search at the previous reference, line-search
fallback, blank-frame dispatch, then commit of the new perforation and return
of the scanarea rect. The committed state is returned even when the trailing
`self._scanarea.rect` computation raises. Note that the blank-frame dispatch
never evaluates `_is_blank` (modelled by `Image.is_blank`): the call lacks an
`await`, so the tested value is a coroutine object and always truthy. -/
def update (st : SAMState) (image : Image) : SAMState × Except SAMError Rect :=
  match st.scanarea with
  | none => (st, .error .pyError)  -- the bare `raise` statement
  | some sa =>
    let st := { st with image := some image }
    match sa.perf_ref.center? with
    | none => (st, .error .validationError)
    | some c =>
      match find_perforation_from_point image st.threshold_levels
          st.reference_perfloc sa.perf_ref c with
      | .error e => (st, .error e)
      | .ok res =>
        let perf_loc? : Except SAMError PerforationLocation :=
          match res with
          | some p => .ok p
          | none =>
            -- not found: try the same vertical axis, catching only
            -- `PerforationNotFoundException` for the blank-frame check
            match find_perforation_from_line image st.threshold_levels
                st.reference_perfloc sa c.x with
            | .ok p => .ok p
            | .error (.perforationNotFound _ _ _) =>
              -- the source tests `if self._is_blank():` WITHOUT awaiting the
              -- async method, so the condition is a coroutine object, which
              -- is always truthy in Python: the catch always raises
              -- `BlankFrameException` and the `raise exc` re-raise of the
              -- `PerforationNotFoundException` is dead code
              .error .blankFrame
            | .error e => .error e
        match perf_loc? with
        | .error e => (st, .error e)
        | .ok perf_loc =>
          let sa2 := { sa with perf_ref := perf_loc }
          let st2 := { st with scanarea := some sa2 }
          match sa2.rect? with
          | some r => (st2, .ok r)
          | none => (st2, .error .validationError)

/-! ## Auxiliary predicates used by the claim statements -/

/-- The perforation position lies within the band returned by
`_max_perf_edges` (the comparisons `_find_perforation_from_line` performs). -/
def perfInBand (band : RectEdges) (p : PerforationLocation) : Prop :=
  band.top ≤ p.top_edge ∧ p.bottom_edge ≤ band.bottom ∧
  band.left ≤ p.inner_edge ∧ p.inner_edge ≤ band.right

instance (band : RectEdges) (p : PerforationLocation) : Decidable (perfInBand band p) :=
  inferInstanceAs (Decidable (band.top ≤ p.top_edge ∧ p.bottom_edge ≤ band.bottom ∧
    band.left ≤ p.inner_edge ∧ p.inner_edge ≤ band.right))

/-- All four raw edges of the scan area lie in the closed unit interval,
i.e. the derived capture rectangle is entirely inside the image. -/
def ScanArea.insideImage (sa : ScanArea) : Prop :=
  0 ≤ sa.edgesRaw.top ∧ sa.edgesRaw.top ≤ 1 ∧
  0 ≤ sa.edgesRaw.bottom ∧ sa.edgesRaw.bottom ≤ 1 ∧
  0 ≤ sa.edgesRaw.left ∧ sa.edgesRaw.left ≤ 1 ∧
  0 ≤ sa.edgesRaw.right ∧ sa.edgesRaw.right ≤ 1

instance (sa : ScanArea) : Decidable sa.insideImage :=
  inferInstanceAs (Decidable (0 ≤ sa.edgesRaw.top ∧ sa.edgesRaw.top ≤ 1 ∧
    0 ≤ sa.edgesRaw.bottom ∧ sa.edgesRaw.bottom ≤ 1 ∧
    0 ≤ sa.edgesRaw.left ∧ sa.edgesRaw.left ≤ 1 ∧
    0 ≤ sa.edgesRaw.right ∧ sa.edgesRaw.right ≤ 1))

/-- Modelled from the spec (claim C10): the actual bounding rectangle of the
perforation in image coordinates, with `x` the horizontal position (the outer
edge) and `y` the vertical position (the top edge). Comparison target for the
`rect` property of the source. -/
def PerforationLocation.imageBoundingRect (p : PerforationLocation) : Rect :=
  ⟨p.outer_edge, p.top_edge, p.width, p.height⟩

/-! ## Concrete instances used by counterexamples and witnesses -/

/-- A 20 x 20 image that is entirely dark. -/
def darkImage : Image := ⟨20, 20, fun _ _ => 0⟩

/-- A 20 x 20 image with the uniform gray value 240 (a blank frame). -/
def blankImage : Image := ⟨20, 20, fun _ _ => 240⟩

/-- A 20 x 20 image whose left half (columns 0 to 9) is bright 240 and whose
right half is dark 0: far from blank (the gray variance is 14400), with no
horizontal intensity transition along any row band around the image center. -/
def splitImage : Image := ⟨20, 20, fun _ c => if c < 10 then 240 else 0⟩

/-- A 20 x 20 image with one bright horizontal band (rows 5 to 14) that spans
every column: top and bottom transitions exist, but no column to the right or
left of the center is ever dark. -/
def stripeImage : Image :=
  ⟨20, 20, fun r _ => if 5 ≤ r ∧ r < 15 then 200 else 0⟩

/-- A 40 x 40 image whose bright region covers rows 15 to 34 of columns 0 to
24: a perforation-like shape shifted toward the lower image half. -/
def lowBandImage : Image :=
  ⟨40, 40, fun r c => if 15 ≤ r ∧ r < 35 ∧ c < 25 then 200 else 0⟩

/-- A 40 x 40 image with a bright hole covering rows 10 to 29 and columns 5
to 29, dark elsewhere. -/
def holeImage : Image :=
  ⟨40, 40, fun r c => if 10 ≤ r ∧ r < 30 ∧ 5 ≤ c ∧ c < 30 then 200 else 0⟩

/-- A well-formed perforation location used as the established reference. -/
def perf0 : PerforationLocation := ⟨1/4, 3/4, 1/2, 1/4⟩

/-- The scan area anchored at `perf0` (valid: edges are 1/2, 1, 1/2, 1). -/
def scanarea0 : ScanArea := ⟨perf0, ⟨0, 0⟩, ⟨1/2, 1/2⟩⟩

/-- A fully set-up manager state: reference perforation, scan area and
threshold levels all present, blank threshold 10, Super8 film specification. -/
def state0 : SAMState :=
  ⟨none, some perf0, some scanarea0, some ⟨200, 100⟩, 10, some super8⟩

/-- A valid scan-area candidate whose vertical center 13/40 is far from the
image midline. -/
def candidateFar : ScanArea := ⟨⟨1/10, 3/10, 1/2, 1/4⟩, ⟨0, 0⟩, ⟨1/4, 1/4⟩⟩

/-- A valid scan-area candidate whose vertical center 21/40 is close to the
image midline. -/
def candidateNear : ScanArea := ⟨⟨3/10, 1/2, 1/2, 1/4⟩, ⟨0, 0⟩, ⟨1/4, 1/4⟩⟩

/-- A scan area with a negative horizontal offset `dx = -1/2` (allowed by the
`OffsetPoint` validation), used against `_max_perf_edges`. -/
def scanareaNegDx : ScanArea := ⟨⟨2/5, 3/5, 1/2, 2/5⟩, ⟨-1/2, 0⟩, ⟨1/5, 1/5⟩⟩

/-- A perforation inside the `_max_perf_edges` band of `scanareaNegDx` whose
derived scan area sticks out on the left. -/
def perfLeft : PerforationLocation := ⟨2/5, 3/5, 1/10, 0⟩

/-- A scan area whose perforation fields were mutated out of range
(`inner_edge = 3/2`) while all four derived edge values are inside `[0,1]`. -/
def scanareaMutated : ScanArea := ⟨⟨0, 0, 3/2, 0⟩, ⟨-3/5, 1/10⟩, ⟨1/10, 1/10⟩⟩

/-- The reference perforation stored by the manager in `state9`
(height 1/5, vertical center 1/5: above the midline). -/
def perfStored : PerforationLocation := ⟨1/10, 3/10, 1/2, 1/4⟩

/-- The current scan-area anchor in `state9`
(height 1/4, vertical center 5/8: below the midline). -/
def perfCurrent : PerforationLocation := ⟨1/2, 3/4, 1/2, 1/4⟩

/-- A film specification with small integer millimeter values (frame height 4,
perforation height 1). Used by concrete states so that kernel evaluation keeps
the rational arithmetic small. -/
def simpleSpec : FilmSpec := ⟨(8, 4), (1, 1), (6, 4), (1/2, -2)⟩

/-- A set-up state in which the stored reference perforation and the current
scan-area anchor differ (as they do after any `update` that moved the hole). -/
def state9 : SAMState :=
  ⟨none, some perfStored, some ⟨perfCurrent, ⟨0, 0⟩, ⟨1/2, 1/2⟩⟩,
   some ⟨200, 100⟩, 10, some simpleSpec⟩

/-! ## Decidability plumbing for concrete evaluations -/

instance {ε α : Type} [DecidableEq ε] [DecidableEq α] : DecidableEq (Except ε α)
  | .error a, .error b =>
    if h : a = b then .isTrue (by rw [h]) else .isFalse (fun hc => h (by cases hc; rfl))
  | .error _, .ok _ => .isFalse (fun hc => by cases hc)
  | .ok _, .error _ => .isFalse (fun hc => by cases hc)
  | .ok a, .ok b =>
    if h : a = b then .isTrue (by rw [h]) else .isFalse (fun hc => h (by cases hc; rfl))

set_option maxRecDepth 1000000

set_option maxHeartbeats 2000000

/-! ## Claim C4 -/

/-- C4: with exactly two valid scan-area candidates collected by `autodetect`,
the second one is strictly closer to the vertical midline of the image, yet
the selection stage of `autodetect` commits the first: the `len(frame_list) > 1`
guard skips the comparison loop when only one candidate remains after popping
the first, contradicting the selection rule of the claim (and the intent of
the comment that the first frame is used unless a better one is found). -/
theorem C4_two_candidate_selection :
    selectScanArea candidateFar [candidateNear] = candidateFar ∧
    |1/2 - (ScanArea.rectRaw candidateNear).center.y| <
      |1/2 - (ScanArea.rectRaw candidateFar).center.y| ∧
    candidateFar.is_valid = true ∧ candidateNear.is_valid = true := by
  with_unfolding_all decide

/-! ## Claim C5 -/

/-- C5: when the detected height deviates from the reference height by more
than 2 percent of it, `_fix_perforation` rebuilds the bad edge from whichever
edge is within that tolerance of the previous frame (top wins over bottom),
raises a `MalformedPerforationException` carrying the expected size, the
actual size and the oversized/undersized/offset classification when neither
edge is close, and is a no-op when no reference is set. -/
theorem C5_vertical_fix (ref prev p : PerforationLocation) :
    (|(p.bottom_edge - p.top_edge) - ref.height| > ref.height * (2/100) →
      |p.top_edge - prev.top_edge| < ref.height * (2/100) →
      ∃ q, fix_perforation (some ref) prev p = .ok q ∧
        q.top_edge = p.top_edge ∧ q.bottom_edge = p.top_edge + ref.height) ∧
    (|(p.bottom_edge - p.top_edge) - ref.height| > ref.height * (2/100) →
      ¬ |p.top_edge - prev.top_edge| < ref.height * (2/100) →
      |p.bottom_edge - prev.bottom_edge| < ref.height * (2/100) →
      ∃ q, fix_perforation (some ref) prev p = .ok q ∧
        q.bottom_edge = p.bottom_edge ∧ q.top_edge = p.bottom_edge - ref.height) ∧
    (|(p.bottom_edge - p.top_edge) - ref.height| > ref.height * (2/100) →
      ¬ |p.top_edge - prev.top_edge| < ref.height * (2/100) →
      ¬ |p.bottom_edge - prev.bottom_edge| < ref.height * (2/100) →
      fix_perforation (some ref) prev p =
        .error ⟨p, ref.height, p.height, classifySize ref.height p.height⟩) ∧
    fix_perforation none prev p = .ok p := by
  refine ⟨?_, ?_, ?_, rfl⟩
  · intro h1 h2
    by_cases hh : |p.inner_edge - prev.inner_edge| > 5/100
    · refine ⟨⟨p.top_edge, p.top_edge + ref.height, prev.inner_edge,
        max 0 (prev.inner_edge - ref.width)⟩, ?_, rfl, rfl⟩
      simp [fix_perforation, h1, h2, hh]
    · refine ⟨⟨p.top_edge, p.top_edge + ref.height, p.inner_edge, p.outer_edge⟩,
        ?_, rfl, rfl⟩
      simp [fix_perforation, h1, h2, hh]
  · intro h1 h2 h3
    by_cases hh : |p.inner_edge - prev.inner_edge| > 5/100
    · refine ⟨⟨p.bottom_edge - ref.height, p.bottom_edge, prev.inner_edge,
        max 0 (prev.inner_edge - ref.width)⟩, ?_, rfl, rfl⟩
      simp [fix_perforation, h1, h2, h3, hh]
    · refine ⟨⟨p.bottom_edge - ref.height, p.bottom_edge, p.inner_edge, p.outer_edge⟩,
        ?_, rfl, rfl⟩
      simp [fix_perforation, h1, h2, h3, hh]
  · intro h1 h2 h3
    simp [fix_perforation, h1, h2, h3]

/-- C5 witness: a perforation whose height 3/5 is 20 percent above the
reference height 1/2, with the top edge matching the previous frame, gets its
bottom edge rebuilt as top plus the reference height. -/
theorem C5_vertical_fix_witness :
    ∃ q, fix_perforation (some ⟨0, 1/2, 1/2, 1/4⟩) ⟨0, 1/2, 1/2, 1/4⟩
        ⟨0, 3/5, 1/2, 1/4⟩ = .ok q ∧
      q.top_edge = (⟨0, 3/5, 1/2, 1/4⟩ : PerforationLocation).top_edge ∧
      q.bottom_edge = (⟨0, 3/5, 1/2, 1/4⟩ : PerforationLocation).top_edge +
        (⟨0, 1/2, 1/2, 1/4⟩ : PerforationLocation).height :=
  (C5_vertical_fix ⟨0, 1/2, 1/2, 1/4⟩ ⟨0, 1/2, 1/2, 1/4⟩ ⟨0, 3/5, 1/2, 1/4⟩).1
    (by with_unfolding_all decide) (by with_unfolding_all decide)

/-! ## Claim C6 -/

/-- C6: whenever `_fix_perforation` succeeds and the detected inner edge
drifted more than 0.05 from the previous frame, the result carries the
previous inner edge and an outer edge of the previous inner edge minus the
reference width clamped below at zero; and the only way `_fix_perforation`
raises is the vertical size check (the horizontal self-heal never raises). -/
theorem C6_inner_heal (ref prev p : PerforationLocation) :
    (∀ q, fix_perforation (some ref) prev p = .ok q →
      |p.inner_edge - prev.inner_edge| > 5/100 →
      q.inner_edge = prev.inner_edge ∧
      q.outer_edge = max 0 (prev.inner_edge - ref.width)) ∧
    (∀ e, fix_perforation (some ref) prev p = .error e →
      |(p.bottom_edge - p.top_edge) - ref.height| > ref.height * (2/100) ∧
      ¬ |p.top_edge - prev.top_edge| < ref.height * (2/100) ∧
      ¬ |p.bottom_edge - prev.bottom_edge| < ref.height * (2/100) ∧
      e = ⟨p, ref.height, p.height, classifySize ref.height p.height⟩) := by
  constructor
  · intro q hq hdrift
    by_cases h1 : |(p.bottom_edge - p.top_edge) - ref.height| > ref.height * (2/100)
    · by_cases h2 : |p.top_edge - prev.top_edge| < ref.height * (2/100)
      · simp [fix_perforation, h1, h2, hdrift] at hq
        simp [← hq]
      · by_cases h3 : |p.bottom_edge - prev.bottom_edge| < ref.height * (2/100)
        · simp [fix_perforation, h1, h2, h3, hdrift] at hq
          simp [← hq]
        · simp [fix_perforation, h1, h2, h3] at hq
    · simp [fix_perforation, h1, hdrift] at hq
      simp [← hq]
  · intro e he
    by_cases h1 : |(p.bottom_edge - p.top_edge) - ref.height| > ref.height * (2/100)
    · by_cases h2 : |p.top_edge - prev.top_edge| < ref.height * (2/100)
      · by_cases hh : |p.inner_edge - prev.inner_edge| > 5/100 <;>
          simp [fix_perforation, h1, h2, hh] at he
      · by_cases h3 : |p.bottom_edge - prev.bottom_edge| < ref.height * (2/100)
        · by_cases hh : |p.inner_edge - prev.inner_edge| > 5/100 <;>
            simp [fix_perforation, h1, h2, h3, hh] at he
        · simp [fix_perforation, h1, h2, h3] at he
          exact ⟨h1, h2, h3, he.symm⟩
    · by_cases hh : |p.inner_edge - prev.inner_edge| > 5/100 <;>
        simp [fix_perforation, h1, hh] at he

/-- C6 witness: a perforation whose inner edge drifted by 1/10 is healed back
to the previous inner edge 3/5, with the outer edge recomputed from the
reference width 1/4. -/
theorem C6_inner_heal_witness :
    (⟨1/4, 3/4, 3/5, 7/20⟩ : PerforationLocation).inner_edge =
      (⟨1/4, 3/4, 3/5, 1/4⟩ : PerforationLocation).inner_edge ∧
    (⟨1/4, 3/4, 3/5, 7/20⟩ : PerforationLocation).outer_edge =
      max 0 ((⟨1/4, 3/4, 3/5, 1/4⟩ : PerforationLocation).inner_edge -
        (⟨1/4, 3/4, 1/2, 1/4⟩ : PerforationLocation).width) :=
  (C6_inner_heal ⟨1/4, 3/4, 1/2, 1/4⟩ ⟨1/4, 3/4, 3/5, 1/4⟩ ⟨1/4, 3/4, 1/2, 2/5⟩).1
    ⟨1/4, 3/4, 3/5, 7/20⟩ (by with_unfolding_all decide) (by with_unfolding_all decide)

/-! ## Claim C7 -/

/-- C7: evaluation of `_find_perforation_from_point` at a failing input for
the claim: on `stripeImage` with start point (1/2, 1/2) and threshold 100, no
column average left or right of the start column is ever below the threshold
(the inner and the outer searches find nothing), yet the call returns a
`PerforationLocation` with `inner_edge = outer_edge = 1/2` (the start column)
instead of the `None` documented for a missing inner edge and instead of the
documented `outer_edge = 0`: the guards `0 <= idx` are always true because
`np.argmax` returns 0 on an all-false array. -/
theorem C7_not_found_evaluation :
    (∀ c, c < 20 → ¬ stripeImage.lineH 0 20 c < 100) ∧
    find_perforation_from_point stripeImage (some ⟨150, 50⟩) none noPrev
      ⟨1/2, 1/2⟩ = .ok (some ⟨1/4, 3/4, 1/2, 1/2⟩) := by
  constructor
  · with_unfolding_all decide
  · with_unfolding_all decide

/-- Helper: the clamp of `u` into the unit interval is below any `x` above `u` and 0. -/
theorem clamp_le (u x : ℚ) (hux : u ≤ x) (h0 : 0 ≤ x) : clamp u 0 1 ≤ x := by
  unfold clamp
  exact max_le h0 (le_trans (min_le_left _ _) hux)

/-- Helper: any `x` below both `u` and 1 is below the clamp of `u`. -/
theorem le_clamp (u x : ℚ) (hxu : x ≤ u) (hx1 : x ≤ 1) : x ≤ clamp u 0 1 := by
  unfold clamp
  exact le_max_of_le_right (le_min hxu hx1)

/-- Helper: clamping into the unit interval can only raise a value that is at most 1. -/
theorem clamp_lower (u : ℚ) (h : u ≤ 1) : u ≤ clamp u 0 1 := by
  unfold clamp
  rw [min_eq_left h]
  exact le_max_right _ _

/-- Helper: the clamp of `u` into the unit interval is at most `max 0 u`. -/
theorem clamp_upper (u : ℚ) : clamp u 0 1 ≤ max 0 u := by
  unfold clamp
  exact max_le_max (le_refl 0) (min_le_left _ _)

/-- Helper: the clamp into the unit interval is nonnegative. -/
theorem clamp_nonneg (u : ℚ) : 0 ≤ clamp u 0 1 := le_max_left _ _

/-- C8: counterexample to the claimed equivalence. For `scanareaNegDx`
(`ref_delta.dx = -1/2`) the perforation `perfLeft` has the reference height,
all coordinates inside the image, and lies inside the `_max_perf_edges` band,
yet the scan area derived from it with the same `ref_delta` and `size` has its
left edge at -2/5, outside `[0,1]`: the computed left bound 0 ignores a
negative `ref_delta.dx`. -/
theorem C8_negative_dx_counterexample :
    perfInBand (max_perf_edges scanareaNegDx) perfLeft ∧
    perfLeft.bottom_edge - perfLeft.top_edge =
      scanareaNegDx.perf_ref.bottom_edge - scanareaNegDx.perf_ref.top_edge ∧
    (0 : ℚ) ≤ perfLeft.top_edge ∧ perfLeft.bottom_edge ≤ 1 ∧
    0 ≤ perfLeft.inner_edge ∧ perfLeft.inner_edge ≤ 1 ∧
    ¬ ScanArea.insideImage ⟨perfLeft, scanareaNegDx.ref_delta, scanareaNegDx.size⟩ := by
  with_unfolding_all decide

/-- C8 amended: the `_max_perf_edges` formulas are exactly as claimed; a
perforation of reference height whose derived scan area lies fully inside the
image always lies inside the band; and the converse - inside the band implies
the derived scan area stays inside the image - holds under the additional
hypotheses that the perforation height is positive, `ref_delta.dy ≥ -1`,
`ref_delta.dx ≥ 0` and `ref_delta.dx + size.width ≤ 1` (the counterexample
shows it fails for a negative `dx`). -/
theorem C8_band_characterization (sa : ScanArea) (p : PerforationLocation)
    (hph : p.bottom_edge - p.top_edge =
      sa.perf_ref.bottom_edge - sa.perf_ref.top_edge) :
    (max_perf_edges sa = ⟨clamp (-sa.ref_delta.dy -
        (sa.perf_ref.bottom_edge - sa.perf_ref.top_edge) / 2) 0 1,
      clamp (1 - sa.size.height - sa.ref_delta.dy +
        (sa.perf_ref.bottom_edge - sa.perf_ref.top_edge) / 2) 0 1,
      0,
      clamp (1 - sa.size.width - sa.ref_delta.dx) 0 1⟩) ∧
    (0 ≤ p.top_edge → p.bottom_edge ≤ 1 → 0 ≤ p.inner_edge → p.inner_edge ≤ 1 →
      ScanArea.insideImage ⟨p, sa.ref_delta, sa.size⟩ →
      perfInBand (max_perf_edges sa) p) ∧
    (0 < sa.perf_ref.bottom_edge - sa.perf_ref.top_edge →
      -1 ≤ sa.ref_delta.dy → 0 ≤ sa.ref_delta.dx →
      sa.ref_delta.dx + sa.size.width ≤ 1 →
      0 ≤ sa.size.width → 0 ≤ sa.size.height →
      perfInBand (max_perf_edges sa) p →
      ScanArea.insideImage ⟨p, sa.ref_delta, sa.size⟩) := by
  refine ⟨rfl, ?_, ?_⟩
  · intro htop hbot hinner0 hinner1 hinside
    obtain ⟨e1, e2, e3, e4, e5, e6, e7, e8⟩ := hinside
    simp only [ScanArea.edgesRaw, PerforationLocation.reference] at e1 e2 e3 e4 e5 e6 e7 e8
    refine ⟨?_, ?_, ?_, ?_⟩
    · exact clamp_le _ _ (by linarith) htop
    · exact le_clamp _ _ (by linarith) hbot
    · exact hinner0
    · exact le_clamp _ _ (by linarith) hinner1
  · intro hph0 hdy hdx0 hdxw hsw hsh hin
    obtain ⟨b1, b2, b3, b4⟩ := hin
    simp only [max_perf_edges] at b1 b2 b3 b4
    have htop0 : (0 : ℚ) ≤ p.top_edge := le_trans (clamp_nonneg _) b1
    have hu : -sa.ref_delta.dy - (sa.perf_ref.bottom_edge - sa.perf_ref.top_edge) / 2 ≤
        p.top_edge :=
      le_trans (clamp_lower _ (by linarith)) b1
    have hbotv : p.bottom_edge ≤ 1 - sa.size.height - sa.ref_delta.dy +
        (sa.perf_ref.bottom_edge - sa.perf_ref.top_edge) / 2 := by
      have h2 := le_trans b2 (clamp_upper _)
      rcases le_or_lt p.bottom_edge (1 - sa.size.height - sa.ref_delta.dy +
        (sa.perf_ref.bottom_edge - sa.perf_ref.top_edge) / 2) with h | h
      · exact h
      · exfalso
        have : p.bottom_edge ≤ 0 := by
          rcases max_cases (0 : ℚ) (1 - sa.size.height - sa.ref_delta.dy +
            (sa.perf_ref.bottom_edge - sa.perf_ref.top_edge) / 2) with ⟨hm, _⟩ | ⟨hm, _⟩ <;>
            linarith [h2, hm]
        linarith
    have hr : p.inner_edge ≤ 1 - sa.size.width - sa.ref_delta.dx := by
      have h4 := le_trans b4 (clamp_upper _)
      have hr0 : (0 : ℚ) ≤ 1 - sa.size.width - sa.ref_delta.dx := by linarith
      rw [max_eq_right hr0] at h4
      exact h4
    refine ⟨?_, ?_, ?_, ?_, ?_, ?_, ?_, ?_⟩ <;>
      simp only [ScanArea.edgesRaw, PerforationLocation.reference] <;> linarith

/-- C8 witness: both directions of the band characterization evaluated on the
concrete `scanarea0` and its reference perforation. -/
theorem C8_band_characterization_witness :
    perfInBand (max_perf_edges scanarea0) perf0 ∧
    ScanArea.insideImage ⟨perf0, scanarea0.ref_delta, scanarea0.size⟩ :=
  ⟨(C8_band_characterization scanarea0 perf0 (by with_unfolding_all decide)).2.1
      (by with_unfolding_all decide) (by with_unfolding_all decide)
      (by with_unfolding_all decide) (by with_unfolding_all decide)
      (by with_unfolding_all decide),
   (C8_band_characterization scanarea0 perf0 (by with_unfolding_all decide)).2.2
      (by with_unfolding_all decide) (by with_unfolding_all decide)
      (by with_unfolding_all decide) (by with_unfolding_all decide)
      (by with_unfolding_all decide) (by with_unfolding_all decide)
      (by with_unfolding_all decide)⟩

/-! ## Claim C9 -/

/-- C9: counterexample. In `state9` the stored reference perforation
(`perfStored`, center 1/5, height 1/5) and the current scan-area anchor
(`perfCurrent`, center 5/8, height 1/4) differ, as they do after `update`
moved the hole: `recommended_shift` mixes the two objects (center from the
anchor, height from the stored reference), so its value 5/32 matches neither
single-perforation formula of the claim, and it is positive although the
stored reference perforation center lies above the midline. -/
theorem C9_recommended_shift_counterexample :
    recommended_shift state9 = .ok (5/32) ∧
    (5/32 : ℚ) ≠ (perfStored.center.y - 1/2) /
      (perfStored.height *
        (simpleSpec.film_frame_size.2 / simpleSpec.perforation_size.2)) ∧
    (5/32 : ℚ) ≠ (perfCurrent.center.y - 1/2) /
      (perfCurrent.height *
        (simpleSpec.film_frame_size.2 / simpleSpec.perforation_size.2)) ∧
    (0 : ℚ) < 5/32 ∧ perfStored.center.y < 1/2 ∧
    state9.reference_perfloc = some perfStored := by
  with_unfolding_all decide

/-- C9 amended: `recommended_shift` reads state only and equals the signed
distance of the scan-area anchor perforation center from the midline
(`scanarea.perf_ref.center.y - 1/2`) divided by the frame height derived from
the stored reference perforation (`reference_perfloc.height` times the
frame-to-perforation height quotient of the film specification); when that
frame height is positive the value is positive exactly when the anchor center
lies below the midline and negative exactly when it lies above. -/
theorem C9_recommended_shift_amended (st : SAMState) (sa : ScanArea)
    (specs : FilmSpec) (refp : PerforationLocation) (c : Point)
    (hsa : st.scanarea = some sa) (hspecs : st.specs = some specs)
    (href : st.reference_perfloc = some refp)
    (hc : sa.perf_ref.center? = some c) :
    recommended_shift st = .ok ((c.y - 1/2) /
      (refp.height * (specs.film_frame_size.2 / specs.perforation_size.2))) ∧
    (0 < refp.height * (specs.film_frame_size.2 / specs.perforation_size.2) →
      ((0 < (c.y - 1/2) /
          (refp.height * (specs.film_frame_size.2 / specs.perforation_size.2)) ↔
        1/2 < c.y) ∧
       ((c.y - 1/2) /
          (refp.height * (specs.film_frame_size.2 / specs.perforation_size.2)) < 0 ↔
        c.y < 1/2))) := by
  constructor
  · simp [recommended_shift, hsa, hspecs, href, hc, validated]
  · intro hpos
    constructor
    · rw [lt_div_iff₀ hpos]
      constructor
      · intro h; linarith
      · intro h; linarith
    · rw [div_lt_iff₀ hpos]
      constructor
      · intro h; linarith
      · intro h; linarith

/-- C9 witness: the amended formula evaluated on `state9`. -/
theorem C9_recommended_shift_amended_witness :
    recommended_shift state9 = .ok (((⟨3/8, 5/8⟩ : Point).y - 1/2) /
      (perfStored.height *
        (simpleSpec.film_frame_size.2 / simpleSpec.perforation_size.2))) :=
  (C9_recommended_shift_amended state9 ⟨perfCurrent, ⟨0, 0⟩, ⟨1/2, 1/2⟩⟩ simpleSpec
    perfStored ⟨3/8, 5/8⟩ rfl rfl rfl (by with_unfolding_all decide)).1

/-! ## Claim C10 -/

/-- C10: the `rect` property of `PerforationLocation` takes its `x` from the
vertical `top_edge` and its `y` from the horizontal `outer_edge` - transposed
relative to the actual bounding rectangle of the perforation in image
coordinates (`imageBoundingRect`) - while width and height stay the
horizontal and vertical extents; a validated `rect` access returns exactly
these raw values; and `manualdetect` hands exactly `perf_loc.rect` to the
intensity calibration, whose result it commits to the manager. -/
theorem C10_rect_transposed :
    (∀ p : PerforationLocation, p.rect =
      ⟨p.top_edge, p.outer_edge, p.inner_edge - p.outer_edge,
       p.bottom_edge - p.top_edge⟩) ∧
    (∀ p : PerforationLocation,
      p.rect.x = p.imageBoundingRect.y ∧ p.rect.y = p.imageBoundingRect.x ∧
      p.rect.width = p.imageBoundingRect.width ∧
      p.rect.height = p.imageBoundingRect.height) ∧
    (∀ (p : PerforationLocation) (prect : Rect),
      p.rect? = some prect → prect = p.rect) ∧
    (∀ (st : SAMState) (img : Image) (pt : Point) (pl : PerforationLocation)
      (prect : Rect) (levels : ImageThresholdLevels),
      find_perforation_from_point img st.threshold_levels none noPrev pt =
        .ok (some pl) →
      pl.rect? = some prect →
      get_intensities_from_perforation img prect = .ok levels →
      (manualdetect st img pt).1.threshold_levels = some levels) := by
  refine ⟨fun p => rfl, fun p => ⟨rfl, rfl, rfl, rfl⟩, ?_, ?_⟩
  · intro p prect h
    simp only [PerforationLocation.rect?, Rect.mk?] at h
    split at h
    · cases h
      rfl
    · cases h
  · intro st img pt pl prect levels hfind hrect hlevels
    unfold manualdetect
    simp only [hfind, hrect, hlevels]
    repeat' split
    all_goals rfl

/-- C10 witness: a full `manualdetect` run on `holeImage` commits the
threshold levels calibrated from the transposed rect of the found
perforation. -/
theorem C10_rect_transposed_witness :
    (manualdetect state0 holeImage ⟨1/2, 1/2⟩).1.threshold_levels =
      some ⟨135, 540/13⟩ :=
  C10_rect_transposed.2.2.2 state0 holeImage ⟨1/2, 1/2⟩ ⟨1/4, 3/4, 3/4, 1/8⟩
    ⟨1/4, 1/8, 5/8, 1/2⟩ ⟨135, 540/13⟩ (by with_unfolding_all decide)
    (by with_unfolding_all decide) (by with_unfolding_all decide)

/-! ## Claim C3 -/

/-- Helper: the boolean unit-interval test as a proposition. -/
theorem unitClosed_iff (q : ℚ) : unitClosed q = true ↔ 0 ≤ q ∧ q ≤ 1 := by
  simp [unitClosed]

/-- Helper: the comparison fold of the autodetect selection only ever returns
an element of the given set of candidates. -/
theorem selectScanArea_foldl_mem (s : List ScanArea) :
    ∀ (l : List ScanArea) (acc : ScanArea × ℚ), acc.1 ∈ s → (∀ x ∈ l, x ∈ s) →
      (l.foldl (fun acc scanarea =>
        let center := scanarea.edgesRaw.top + scanarea.size.height / 2
        let delta := |1/2 - center|
        if delta < acc.2 then (scanarea, delta) else acc) acc).1 ∈ s := by
  intro l
  induction l with
  | nil => intro acc hacc _; exact hacc
  | cons x xs ih =>
    intro acc hacc hl
    simp only [List.foldl_cons]
    apply ih
    · by_cases hcmp : |1/2 - (x.edgesRaw.top + x.size.height / 2)| < acc.2
      · simp only [hcmp, if_pos]
        exact hl x (List.mem_cons_self x xs)
      · simp only [hcmp, if_neg, not_false_iff]
        exact hacc
    · intro y hy
      exact hl y (List.mem_cons_of_mem x hy)

/-- Helper: the autodetect selection returns one of the collected frames. -/
theorem selectScanArea_mem (first : ScanArea) (rest : List ScanArea) :
    selectScanArea first rest ∈ first :: rest := by
  unfold selectScanArea
  by_cases hlen : rest.length > 1
  · simp only [hlen, if_pos]
    apply selectScanArea_foldl_mem
    · exact List.mem_cons_self first rest
    · intro x hx
      exact List.mem_cons_of_mem first hx
  · simp only [hlen, if_neg, not_false_iff]
    exact List.mem_cons_self first rest

/-- Helper: the autodetect candidate loop only appends frames whose
`is_valid` holds, so every collected frame is valid. -/
theorem autodetect_loop_frames_valid (image : Image) (specs : FilmSpec) :
    ∀ (cands : List Rect) (st : SAMState) (frames : List ScanArea)
      (sp : Option Point) (sa : Option ScanArea) (st2 : SAMState)
      (frames2 : List ScanArea) (sp2 : Option Point) (sa2 : Option ScanArea),
      autodetect_loop image specs cands st frames sp sa =
        (st2, .ok (frames2, sp2, sa2)) →
      (∀ f ∈ frames, f.is_valid = true) → ∀ f ∈ frames2, f.is_valid = true := by
  intro cands
  induction cands with
  | nil =>
    intro st frames sp sa st2 frames2 sp2 sa2 h hf
    simp only [autodetect_loop, Prod.mk.injEq, Except.ok.injEq] at h
    obtain ⟨-, h1, -, -⟩ := h
    rw [← h1]
    exact hf
  | cons cand rest ih =>
    intro st frames sp sa st2 frames2 sp2 sa2 h hf
    unfold autodetect_loop at h
    dsimp only at h
    repeat' split at h
    any_goals simp at h
    all_goals
      refine ih _ _ _ _ _ _ _ _ h ?_
    all_goals
      intro f hfmem
    all_goals
      first
      | exact hf f hfmem
      | (rcases List.mem_append.mp hfmem with hmem | hmem
         · exact hf f hmem
         · rw [List.mem_singleton.mp hmem]
           assumption)

/-- C3: counterexample. A successful `update` on `lowBandImage` (the point
search finds the hole shifted down, the horizontal heal accepts it) returns a
rect and commits a scan area whose `is_valid` is false, although the previous
scan area was valid - `update` never re-checks validity. Moreover `is_valid`
is not equivalent to the four computed edges lying in `[0,1]` for arbitrary
field values: `scanareaMutated` has all four edge values inside `[0,1]` but
`is_valid` is false, because the validated `reference` point construction
rejects its out-of-range `inner_edge`. -/
theorem C3_validity_counterexample :
    (update state0 lowBandImage).2 = .ok ⟨1/2, 5/8, 1/2, 1/2⟩ ∧
    (update state0 lowBandImage).1.scanarea.map ScanArea.is_valid = some false ∧
    state0.scanarea.map ScanArea.is_valid = some true ∧
    scanareaMutated.is_valid = false ∧
    ScanArea.insideImage scanareaMutated := by
  refine ⟨?_, ?_, ?_, ?_, ?_⟩ <;> with_unfolding_all decide

/-- C3 amended: for a `ScanArea` whose perforation fields lie in `[0,1]` (the
invariant the pydantic constructor grants), `is_valid` is true exactly when
the four computed edges lie in `[0,1]`; and every scan area committed by a
successful `autodetect` or `manualdetect` satisfies `is_valid`. (A successful
`update` can commit an invalid scan area, see the counterexample.) -/
theorem C3_validity_amended :
    (∀ sa : ScanArea,
      (0 ≤ sa.perf_ref.top_edge ∧ sa.perf_ref.top_edge ≤ 1 ∧
       0 ≤ sa.perf_ref.bottom_edge ∧ sa.perf_ref.bottom_edge ≤ 1 ∧
       0 ≤ sa.perf_ref.inner_edge ∧ sa.perf_ref.inner_edge ≤ 1 ∧
       0 ≤ sa.perf_ref.outer_edge ∧ sa.perf_ref.outer_edge ≤ 1) →
      (sa.is_valid = true ↔ sa.insideImage)) ∧
    (∀ (st : SAMState) (img : Image) (cands : List Rect) (st2 : SAMState),
      autodetect st img cands = (st2, .ok ()) →
      ∀ sa, st2.scanarea = some sa → sa.is_valid = true) ∧
    (∀ (st : SAMState) (img : Image) (pt : Point) (st2 : SAMState),
      manualdetect st img pt = (st2, .ok ()) →
      ∀ sa, st2.scanarea = some sa → sa.is_valid = true) := by
  refine ⟨?_, ?_, ?_⟩
  · intro sa hfields
    obtain ⟨ht0, ht1, hb0, hb1, hi0, hi1, ho0, ho1⟩ := hfields
    have hcond : (unitClosed sa.perf_ref.inner_edge &&
        unitClosed ((sa.perf_ref.top_edge + sa.perf_ref.bottom_edge) / 2)) = true := by
      rw [Bool.and_eq_true, unitClosed_iff, unitClosed_iff]
      exact ⟨⟨hi0, hi1⟩, by constructor <;> linarith⟩
    have href : sa.perf_ref.reference? = some sa.perf_ref.reference := by
      unfold PerforationLocation.reference? Point.mk?
      rw [if_pos hcond]
      rfl
    unfold ScanArea.is_valid ScanArea.edges?
    rw [href]
    simp only [Option.bind_eq_bind, Option.some_bind, RectEdges.mk?]
    unfold ScanArea.insideImage ScanArea.edgesRaw
    constructor
    · intro h
      split at h
      · rename_i hcond
        simp only [Bool.and_eq_true, unitClosed_iff] at hcond
        obtain ⟨⟨⟨c1, c2⟩, c3⟩, c4⟩ := hcond
        exact ⟨c1.1, c1.2, c2.1, c2.2, c3.1, c3.2, c4.1, c4.2⟩
      · simp at h
    · intro h
      obtain ⟨d1, d2, d3, d4, d5, d6, d7, d8⟩ := h
      rw [if_pos]
      · rfl
      · simp only [Bool.and_eq_true, unitClosed_iff]
        exact ⟨⟨⟨⟨d1, d2⟩, ⟨d3, d4⟩⟩, ⟨d5, d6⟩⟩, ⟨d7, d8⟩⟩
  · intro st img cands st2 h sa hsa
    unfold autodetect at h
    dsimp only at h
    repeat' split at h
    any_goals simp at h
    rename_i st3 sp3 sa3 frames3 first rest heq
    rw [← h] at hsa
    simp at hsa
    rw [← hsa]
    exact autodetect_loop_frames_valid img _ cands _ [] none none st3 (first :: rest)
      sp3 sa3 heq (by intro f hf; cases hf) _ (selectScanArea_mem first rest)
  · intro st img pt st2 h sa hsa
    unfold manualdetect at h
    dsimp only at h
    repeat' split at h
    any_goals simp at h
    rename_i hvalid
    rw [← h] at hsa
    simp at hsa
    rw [← hsa]
    exact hvalid

/-- C3 witness: the equivalence evaluated on the concrete valid `scanarea0`. -/
theorem C3_validity_amended_witness :
    scanarea0.is_valid = true ∧ ScanArea.insideImage scanarea0 :=
  ⟨by with_unfolding_all decide,
   (C3_validity_amended.1 scanarea0 (by with_unfolding_all decide)).mp
     (by with_unfolding_all decide)⟩

/-! ## Claim C2 -/

/-- C2: evaluation of `update` at a failing input for the claim. On the
set-up `state0` and the decidedly non-blank `splitImage` (variance 14400, far
above the blank bound 100), the point search returns not-found (the probe
window average 400/3 is below the threshold 150) and the line search raises
`PerforationNotFoundException` (no vertical transition on the bright left
half), yet `update` raises `BlankFrameException` instead of letting that
exception propagate: `update` tests `self._is_blank()` without `await`, so
the condition is a coroutine object and always truthy, and the documented
re-raise branch is dead code. -/
theorem C2_coroutine_blank_evaluation :
    find_perforation_from_point splitImage state0.threshold_levels
      state0.reference_perfloc perf0 ⟨3/8, 1/2⟩ = .ok none ∧
    find_perforation_from_line splitImage state0.threshold_levels
      state0.reference_perfloc scanarea0 (3/8) =
      .error (.perforationNotFound none none none) ∧
    splitImage.is_blank 10 = false ∧
    (update state0 splitImage).2 = .error .blankFrame := by
  refine ⟨?_, ?_, ?_, ?_⟩ <;> with_unfolding_all decide

/-! ## Claim C1 -/

/-- Helper: the autodetect candidate loop writes only the threshold levels,
never the reference perforation or the scan area. -/
theorem autodetect_loop_fields (image : Image) (specs : FilmSpec) :
    ∀ (cands : List Rect) (st : SAMState) (frames : List ScanArea)
      (sp : Option Point) (sa : Option ScanArea),
      (autodetect_loop image specs cands st frames sp sa).1.reference_perfloc =
        st.reference_perfloc ∧
      (autodetect_loop image specs cands st frames sp sa).1.scanarea =
        st.scanarea := by
  intro cands
  induction cands with
  | nil => intro st frames sp sa; exact ⟨rfl, rfl⟩
  | cons cand rest ih =>
    intro st frames sp sa
    unfold autodetect_loop
    dsimp only
    repeat' split
    all_goals first
      | exact ⟨rfl, rfl⟩
      | exact ih _ _ _ _

/-- Helper: restatement of the loop field preservation keyed on a result
equation. -/
theorem autodetect_loop_fields_eq (image : Image) (specs : FilmSpec)
    (cands : List Rect) (st : SAMState) (frames : List ScanArea)
    (sp : Option Point) (sa : Option ScanArea) (st2 : SAMState)
    (r : Except SAMError (List ScanArea × Option Point × Option ScanArea))
    (h : autodetect_loop image specs cands st frames sp sa = (st2, r)) :
    st2.reference_perfloc = st.reference_perfloc ∧ st2.scanarea = st.scanarea := by
  have hf := autodetect_loop_fields image specs cands st frames sp sa
  rw [h] at hf
  exact hf

/-- C1: counterexample. `state0` is fully set up, yet a `manualdetect` call
that fails (dark image, the probe window is below the threshold) leaves the
stored reference perforation and scan area cleared to `None` instead of their
previous values: both detectors null the fields before searching. -/
theorem C1_atomicity_counterexample :
    (manualdetect state0 darkImage ⟨1/2, 1/2⟩).2 =
      .error (.perforationNotFound none (some ⟨1/2, 1/2⟩) none) ∧
    (manualdetect state0 darkImage ⟨1/2, 1/2⟩).1.reference_perfloc = none ∧
    (manualdetect state0 darkImage ⟨1/2, 1/2⟩).1.scanarea = none ∧
    state0.reference_perfloc = some perf0 ∧ state0.scanarea = some scanarea0 := by
  refine ⟨?_, ?_, ?_, rfl, rfl⟩ <;> with_unfolding_all decide

/-- C1 amended: `update` never modifies the stored reference perforation or
the threshold levels, and any failing `update` other than a trailing pydantic
`ValidationError` (raised by the final rect computation after the new
perforation is already committed) leaves the scan area unchanged; a failing
`autodetect` or `manualdetect`, however, leaves the reference perforation and
the scan area cleared to `None` (they are nulled at entry, and threshold
levels may additionally have been recalibrated before the failure). -/
theorem C1_atomicity_amended :
    (∀ (st : SAMState) (img : Image) (st2 : SAMState) (r : Except SAMError Rect),
      update st img = (st2, r) →
      st2.reference_perfloc = st.reference_perfloc ∧
      st2.threshold_levels = st.threshold_levels) ∧
    (∀ (st : SAMState) (img : Image) (st2 : SAMState) (e : SAMError),
      update st img = (st2, .error e) → e ≠ .validationError →
      st2.scanarea = st.scanarea) ∧
    (∀ (st : SAMState) (img : Image) (pt : Point) (st2 : SAMState) (e : SAMError),
      manualdetect st img pt = (st2, .error e) →
      st2.reference_perfloc = none ∧ st2.scanarea = none) ∧
    (∀ (st : SAMState) (img : Image) (cands : List Rect) (st2 : SAMState)
      (e : SAMError),
      autodetect st img cands = (st2, .error e) →
      st2.reference_perfloc = none ∧ st2.scanarea = none) := by
  refine ⟨?_, ?_, ?_, ?_⟩
  · intro st img st2 r h
    unfold update at h
    dsimp only at h
    repeat' split at h
    all_goals
      simp only [Prod.mk.injEq] at h
    all_goals
      obtain ⟨h1, -⟩ := h
    all_goals
      rw [← h1]
    all_goals exact ⟨rfl, rfl⟩
  · intro st img st2 e h hne
    unfold update at h
    dsimp only at h
    repeat' split at h
    all_goals
      simp only [Prod.mk.injEq] at h
    all_goals
      obtain ⟨h1, h2⟩ := h
    all_goals
      rw [← h1]
    all_goals first
      | rfl
      | (exact absurd (by injection h2 with h3; exact h3.symm) hne)
      | simp at h2
  · intro st img pt st2 e h
    unfold manualdetect at h
    dsimp only at h
    repeat' split at h
    all_goals
      simp only [Prod.mk.injEq] at h
    all_goals
      obtain ⟨h1, h2⟩ := h
    all_goals
      rw [← h1]
    all_goals first
      | exact ⟨rfl, rfl⟩
      | simp at h2
  · intro st img cands st2 e h
    unfold autodetect at h
    dsimp only at h
    repeat' split at h
    all_goals
      simp only [Prod.mk.injEq] at h
    all_goals
      obtain ⟨h1, h2⟩ := h
    all_goals
      rw [← h1]
    all_goals try exact ⟨rfl, rfl⟩
    all_goals try simp at h2
    all_goals
      rename_i heq
    all_goals
      exact autodetect_loop_fields_eq _ _ _ _ _ _ _ _ _ heq

/-- C1 witness: the failing blank-frame `update` on `state0` leaves the scan
area unchanged. -/
theorem C1_atomicity_amended_witness :
    ({ state0 with image := some blankImage } : SAMState).scanarea =
      state0.scanarea :=
  C1_atomicity_amended.2.1 state0 blankImage
    { state0 with image := some blankImage } .blankFrame
    (by with_unfolding_all rfl) (by with_unfolding_all decide)
